import Mathlib

set_option linter.unusedVariables false

/-
Verification of the plant-monitor telemetry node (src/main.py) against its
specification. The mutable module-level dictionaries of the Python source
(sensor_status, failed_sensor_reads, connection_status, plus the mqtt_client
and driver objects) are embedded as an explicit state record that every
operation threads through. Python exceptions are embedded with Except, the
outcomes of external transport and hardware calls are supplied by explicit
environment arguments, and the sequence of session-level calls actually made
on the MQTT client is returned as a trace so that claims about which calls
are attempted, and under which link state, can be stated.
-/

namespace PlantMonitor

/-- The three sensors tracked in the failed_sensor_reads dictionary
(src/main.py line 71). -/
inductive SensorName
  | dht11
  | bh1750
  | soil_moisture
  deriving DecidableEq, Repr

/-- The failed_sensor_reads dictionary: per sensor, the count of consecutive
failed reads (src/main.py line 71). -/
abbrev Counters := SensorName → Nat

/-- Dictionary update for one sensor counter. -/
def setCounter (fr : Counters) (name : SensorName) (v : Nat) : Counters :=
  fun n => if n = name then v else fr n

/-- The healthy test applied to a failure counter: the source tests
failed_sensor_reads[ name] < 5 inside publish_device_status
(src/main.py lines 433 to 435). -/
def is_healthy (c : Nat) : Bool := decide (c < 5)

/-- The sensor_status dictionary (src/main.py line 70): which sensors
initialized successfully at boot. -/
structure SensorStatus where
  dht11 : Bool
  bh1750 : Bool
  soil_moisture : Bool
  oled : Bool
  deriving DecidableEq, Repr

/-- The pieces of module-level mutable state of src/main.py that the verified
operations read and write: connection_status (wifi, mqtt,
last_successful_publish, lines 72), whether mqtt_client is not None,
sensor_status and failed_sensor_reads. -/
structure GState where
  wifi : Bool
  mqtt : Bool
  clientExists : Bool
  lastPub : Int
  ss : SensorStatus
  fr : Counters

/-- is_mqtt_connected (src/main.py lines 233 to 243): the client object
exists and the mqtt flag of connection_status is set. -/
def is_mqtt_connected (s : GState) : Bool := s.clientExists && s.mqtt

/-- The working_sensors count of publish_device_status (src/main.py lines
431 to 437): a sensor counts when it initialized and its consecutive failure
count is below 5. -/
def working_sensors (s : GState) : Nat :=
  (if s.ss.dht11 && is_healthy (s.fr SensorName.dht11) then 1 else 0) +
  (if s.ss.bh1750 && is_healthy (s.fr SensorName.bh1750) then 1 else 0) +
  (if s.ss.soil_moisture && is_healthy (s.fr SensorName.soil_moisture) then 1 else 0)

/-- The total_sensors count of publish_device_status (src/main.py lines
439 to 445). -/
def total_sensors (s : GState) : Nat :=
  (if s.ss.dht11 then 1 else 0) +
  (if s.ss.bh1750 then 1 else 0) +
  (if s.ss.soil_moisture then 1 else 0)

/-- The f-string of the partially-degraded branch of publish_device_status
(src/main.py line 455). -/
def degraded_status (working total : Nat) : String :=
  "Partial (" ++ toString working ++ "/" ++ toString total ++ " sensors)"

/-- The status string computed by publish_device_status (src/main.py lines
447 to 459), as a pure function of the state and the current time. -/
def device_status (s : GState) (now : Int) : String :=
  if s.wifi = false then "WiFi Disconnected"
  else if s.mqtt = false then "MQTT Disconnected"
  else if working_sensors s = 0 then "All Sensors Failed"
  else if working_sensors s < total_sensors s then
    degraded_status (working_sensors s) (total_sensors s)
  else if 300 < now - s.lastPub then "Publish Timeout"
  else "Online"

/-- A session-level call made on the MQTT client object. -/
inductive Ev
  | connectSession
  | ping
  | publish (topic : String)
  deriving DecidableEq, Repr

/-- A trace of session-level calls; each entry pairs the call with the value
of the wifi flag of connection_status at the moment the call is made. -/
abbrev Trace := List (Ev × Bool)

/-- Result of safe_publish: returned boolean, resulting state, remaining
transport environment, and the transport calls made. -/
structure SPResult where
  ok : Bool
  state : GState
  env : List Bool
  trace : Trace

/-- safe_publish (src/main.py lines 353 to 374): fails closed when
is_mqtt_connected is false; otherwise performs one transport publish whose
outcome is the next entry of env (true means the call returned, false means
it raised); a raise is caught, sets the mqtt flag false and returns false. -/
def safe_publish (s : GState) (topic : String) (value : String) (retain : Bool)
    (env : List Bool) : SPResult :=
  if is_mqtt_connected s = false then ⟨false, s, env, []⟩
  else if env.headD true then ⟨true, s, env.tail, [(Ev.publish topic, s.wifi)]⟩
  else ⟨false, { s with mqtt := false }, env.tail, [(Ev.publish topic, s.wifi)]⟩

/-- The status state topic of src/main.py line 428. -/
def status_topic : String := "homeassistant/sensor/pico_w_01/status/state"

/-- publish_device_status (src/main.py lines 416 to 461): computes the status
string and hands it to safe_publish on the status topic. -/
def publish_device_status (s : GState) (now : Int) (env : List Bool) : SPResult :=
  safe_publish s status_topic (device_status s now) false env

/-- The per-quantity state topic of publish_sensor_data (src/main.py
line 409). -/
def quantity_topic (sensor_type : String) : String :=
  "homeassistant/sensor/pico_w_01/" ++ sensor_type ++ "/state"

/-- Result of the publish_sensor_data loop: the published_count, resulting
state, remaining transport environment, the transport-level publish calls
made, and the topics for which safe_publish was invoked at all. -/
structure PubResult where
  count : Nat
  state : GState
  env : List Bool
  transported : Trace
  calls : List String

/-- The for-loop of publish_sensor_data (src/main.py lines 405 to 412):
quantities whose value is None are skipped; every other quantity is handed to
safe_publish, and the successes are counted. -/
def publish_batch (s : GState) (env : List Bool) :
    List (String × Option ℚ) → PubResult
  | [] => ⟨0, s, env, [], []⟩
  | (_, none) :: rest => publish_batch s env rest
  | (nm, some v) :: rest =>
    let r := safe_publish s (quantity_topic nm) (toString v) true env
    let r2 := publish_batch r.state r.env rest
    ⟨(if r.ok then 1 else 0) + r2.count, r2.state, r2.env,
      r.trace ++ r2.transported, quantity_topic nm :: r2.calls⟩

/-- The batch assembled by publish_sensor_data (src/main.py lines 398
to 403), in source order. -/
def sensor_batch (temp hum lux moisture : Option ℚ) : List (String × Option ℚ) :=
  [("temperature", temp), ("humidity", hum), ("lux", lux), ("soil_moisture", moisture)]

/-- publish_sensor_data (src/main.py lines 377 to 413): returns 0 at once
when is_mqtt_connected is false, otherwise runs the per-quantity loop. -/
def publish_sensor_data (s : GState) (temp hum lux moisture : Option ℚ)
    (env : List Bool) : PubResult :=
  if is_mqtt_connected s = false then ⟨0, s, env, [], []⟩
  else publish_batch s env (sensor_batch temp hum lux moisture)

/-- The average computed in the publish step of the main loop (src/main.py
lines 724 to 731): None for an empty readings list, otherwise sum divided by
length. -/
def drain_mean (l : List ℚ) : Option ℚ :=
  if l.isEmpty then none else some (l.sum / l.length)

/-- The four readings lists used for averaging (src/main.py lines 643
to 646). -/
structure Windows where
  temp : List ℚ
  hum : List ℚ
  lux : List ℚ
  moist : List ℚ
  deriving DecidableEq, Repr

/-- Result of one pass through the publish branch of the main loop. -/
structure CycleResult where
  windows : Windows
  state : GState
  count : Nat

/-- The publish branch of the main loop (src/main.py lines 722 to 756):
average each window, publish the batch, update last_successful_publish only
when at least one quantity was published, then clear all four readings lists
unconditionally. -/
def publish_cycle (w : Windows) (s : GState) (now : Int) (env : List Bool) :
    CycleResult :=
  let r := publish_sensor_data s (drain_mean w.temp) (drain_mean w.hum)
    (drain_mean w.lux) (drain_mean w.moist) env
  let s2 := if 0 < r.count then { r.state with lastPub := now } else r.state
  ⟨⟨[], [], [], []⟩, s2, r.count⟩

/-- get_soil_moisture_percent (src/main.py lines 508 to 526): clamp the raw
reading into the wet..dry range, then scale linearly; the Python int() of the
nonnegative quotient coincides with integer division. -/
def get_soil_moisture_percent (raw_value : Int) (dry : Int) (wet : Int) : Int :=
  let r := max (min raw_value dry) wet
  (dry - r) * 100 / (dry - wet)

/-- safe_sensor_read (src/main.py lines 529 to 554): run the read function;
on a normal return reset the counter of that sensor to 0 and hand the result
back, on a raised exception increment the counter and return None. The Option
in the first component distinguishes the None returned on failure. -/
def safe_sensor_read {α : Type} (fr : Counters) (name : SensorName)
    (outcome : Except Unit α) : Option α × Counters :=
  match outcome with
  | Except.ok v => (some v, setCounter fr name 0)
  | Except.error _ => (none, setCounter fr name (fr name + 1))

/-- A sequence of safe_sensor_read calls for one sensor, threading the
counters. -/
def runReads {α : Type} (name : SensorName) :
    Counters → List (Except Unit α) → Counters
  | fr, [] => fr
  | fr, o :: rest => runReads name (safe_sensor_read fr name o).2 rest

/-- Which driver objects are not None (dht_sensor, light_sensor,
soil_moisture_adc of src/main.py lines 63 to 65). -/
structure Drivers where
  dht : Bool
  bh : Bool
  soil : Bool
  deriving DecidableEq, Repr

/-- Outcomes the hardware would deliver if the corresponding driver call were
made: a value, or a raised exception. -/
structure ReadEnv where
  dht : Except Unit (ℚ × ℚ)
  bh : Except Unit ℚ
  soil : Except Unit Int

/-- The read_dht closure of read_sensors_once (src/main.py lines 571 to 575):
with dht_sensor None it returns the pair (None, None) without touching the
hardware; otherwise it measures and may raise. -/
def read_dht (d : Drivers) (env : ReadEnv) : Except Unit (Option ℚ × Option ℚ) :=
  if d.dht then Except.map (fun p => (some p.1, some p.2)) env.dht
  else Except.ok (none, none)

/-- The light closure of read_sensors_once (src/main.py lines 580 to 583):
with light_sensor None it returns None without touching the hardware. -/
def read_bh1750 (d : Drivers) (env : ReadEnv) : Except Unit (Option ℚ) :=
  if d.bh then Except.map some env.bh else Except.ok none

/-- The soil closure of read_sensors_once (src/main.py lines 586 to 589):
with soil_moisture_adc None it returns None without touching the hardware. -/
def read_soil (d : Drivers) (env : ReadEnv) : Except Unit (Option Int) :=
  if d.soil then Except.map some env.soil else Except.ok none

/-- Calibration constants of src/config_example.py. -/
def SOIL_MOISTURE_DRY : Int := 41000

def SOIL_MOISTURE_WET : Int := 18000

/-- The values produced by one read_sensors_once pass together with the
counters afterwards. -/
structure ReadResult where
  temp : Option ℚ
  hum : Option ℚ
  lux : Option ℚ
  moisture : Option Int
  counters : Counters

/-- read_sensors_once (src/main.py lines 557 to 594): the three sensors are
read through safe_sensor_read in source order; the soil raw value, when
present, is converted with get_soil_moisture_percent. -/
def read_sensors_once (fr : Counters) (d : Drivers) (env : ReadEnv) : ReadResult :=
  let r1 := safe_sensor_read fr SensorName.dht11 (read_dht d env)
  let th := r1.1.getD (none, none)
  let r2 := safe_sensor_read r1.2 SensorName.bh1750 (read_bh1750 d env)
  let lux := r2.1.join
  let r3 := safe_sensor_read r2.2 SensorName.soil_moisture (read_soil d env)
  let raw := r3.1.join
  ⟨th.1, th.2, lux,
    raw.map (fun rv => get_soil_moisture_percent rv SOIL_MOISTURE_DRY SOIL_MOISTURE_WET),
    r3.2⟩

/-- Repeated sensor-read rounds of the main loop, threading the counters. -/
def runSensorLoop (d : Drivers) : Counters → List ReadEnv → Counters
  | fr, [] => fr
  | fr, e :: rest => runSensorLoop d (read_sensors_once fr d e).counters rest

/-- connect_wifi (src/main.py lines 151 to 185): the wifiOk argument
abstracts whether wlan.isconnected() holds after the bounded retry loop; the
wifi flag of connection_status is set to that outcome. Only link-level
traffic happens here, so no session call is traced. -/
def connect_wifi (s : GState) (wifiOk : Bool) : Bool × GState :=
  (wifiOk, { s with wifi := wifiOk })

/-- The test topic published right after a successful MQTT connect
(src/main.py line 221). -/
def test_topic : String := "homeassistant/sensor/pico_w_01/test/state"

/-- connect_mqtt (src/main.py lines 188 to 230): a client object is always
constructed and its connect method called; on success the mqtt flag is set
and a test message is published inside the same try block; any exception
sets mqtt_client to None and the flag to false. -/
def connect_mqtt (s : GState) (connectOk testOk : Bool) : Bool × GState × Trace :=
  if connectOk then
    if testOk then
      (true, { s with clientExists := true, mqtt := true },
       [(Ev.connectSession, s.wifi), (Ev.publish test_topic, s.wifi)])
    else
      (false, { s with clientExists := false, mqtt := false },
       [(Ev.connectSession, s.wifi), (Ev.publish test_topic, s.wifi)])
  else
    (false, { s with clientExists := false, mqtt := false },
     [(Ev.connectSession, s.wifi)])

/-- The sensor ids announced by publish_discovery_config, in source order
(src/main.py lines 264 to 303). -/
def discovery_ids : List String :=
  ["humidity", "temperature", "lux", "soil_moisture", "status"]

/-- publish_discovery_config (src/main.py lines 246 to 350): returns at once
when is_mqtt_connected is false; otherwise publishes one retained config per
sensor id, with every exception caught and no flag changed. -/
def publish_discovery_config (s : GState) : GState × Trace :=
  if is_mqtt_connected s = false then (s, [])
  else
    (s, discovery_ids.map fun i =>
      (Ev.publish ("homeassistant/sensor/pico_w_01/" ++ i ++ "/config"), s.wifi))

/-- The module-level startup sequence of src/main.py lines 604 to 612:
connect_wifi, then connect_mqtt unconditionally, and on mqtt success the
discovery config and one device status publish. -/
def startup (s : GState) (wifiOk connectOk testOk : Bool) (statusEnv : List Bool)
    (now : Int) : GState × Trace :=
  let w := connect_wifi s wifiOk
  let m := connect_mqtt w.2 connectOk testOk
  if m.1 then
    let d := publish_discovery_config m.2.1
    let st := publish_device_status d.1 now statusEnv
    (st.state, m.2.2 ++ d.2 ++ st.trace)
  else (m.2.1, m.2.2)

/-- The MQTT block of the connectivity check (src/main.py lines 677 to 689):
when the client object exists a ping is always attempted first; on ping
failure the mqtt flag is cleared and connect_mqtt runs, followed by the
discovery config and a status publish when it reconnected; with no client
the mqtt flag is simply cleared. -/
def mqtt_check_step (s1 : GState) (pingOk connectOk testOk : Bool) (se1 : List Bool)
    (now : Int) : GState × Trace :=
  if s1.clientExists then
    let tailRes : GState × Trace :=
      if pingOk then ({ s1 with mqtt := true }, [])
      else
        let m := connect_mqtt { s1 with mqtt := false } connectOk testOk
        if is_mqtt_connected m.2.1 then
          let d := publish_discovery_config m.2.1
          let st := publish_device_status d.1 now se1
          (st.state, m.2.2 ++ d.2 ++ st.trace)
        else (m.2.1, m.2.2)
    (tailRes.1, (Ev.ping, s1.wifi) :: tailRes.2)
  else ({ s1 with mqtt := false }, [])

/-- The 60-second connectivity check of the main loop (src/main.py lines 667
to 698). wlanConnected abstracts wlan.isconnected() at entry; wifiOk, pingOk,
connectOk and testOk are the outcomes of the respective attempts; se1 feeds
the status publish after a successful reconnect and se2 the status publish
made when a flag changed. -/
def connectivity_check (s : GState) (wlanConnected wifiOk pingOk connectOk testOk : Bool)
    (se1 se2 : List Bool) (now : Int) : GState × Trace :=
  let wifiWas := s.wifi
  let mqttWas := s.mqtt
  let s1 := if wlanConnected = false then (connect_wifi s wifiOk).2
    else { s with wifi := true }
  let step2 := mqtt_check_step s1 pingOk connectOk testOk se1 now
  let s2 := step2.1
  if wifiWas != s2.wifi || mqttWas != s2.mqtt then
    let st := publish_device_status s2 now se2
    (st.state, step2.2 ++ st.trace)
  else (s2, step2.2)

/-- All sensors initialized (the sensor_status dictionary after a fully
successful boot). -/
def allUp : SensorStatus := ⟨true, true, true, true⟩

/-- A state with both connectivity flags down, a live client absent, and
every sensor counter at the threshold: link down and all sensors failed. -/
def stLinkDownAllFailed : GState := ⟨false, false, false, 0, allUp, fun _ => 5⟩

/-- A fully healthy connected state. -/
def stUp : GState := ⟨true, true, true, 0, allUp, fun _ => 0⟩

/-- A state whose wifi flag is down while the mqtt flag is up and the client
exists: reachable by the startup sequence when the WiFi retry loop fails but
the transport connect succeeds. -/
def stWifiDownMqttUp : GState := ⟨false, true, true, 0, allUp, fun _ => 0⟩

/-- A connected-link state whose session flag is down. -/
def stMqttDown : GState := ⟨true, false, true, 0, allUp, fun _ => 0⟩

/-- The all-flags-down boot state (src/main.py lines 70 to 72). -/
def stBoot : GState := ⟨false, false, false, 0, ⟨false, false, false, false⟩, fun _ => 0⟩

/-- All driver objects None. -/
def dNone : Drivers := ⟨false, false, false⟩

/-- A hardware environment in which every attempted driver call raises. -/
def envRaise : ReadEnv := ⟨Except.error (), Except.error (), Except.error ()⟩

theorem setCounter_self (fr : Counters) (name : SensorName) (v : Nat) :
    setCounter fr name v name = v := by
  simp [setCounter]

theorem setCounter_other (fr : Counters) (name n : SensorName) (v : Nat) (h : n ≠ name) :
    setCounter fr name v n = fr n := by
  simp [setCounter, h]

theorem runReads_err_replicate {α : Type} (name : SensorName) (fr : Counters) (N : Nat) :
    runReads name fr (List.replicate N (Except.error () : Except Unit α)) name =
      fr name + N := by
  induction N generalizing fr with
  | zero => rfl
  | succ n ih =>
    rw [List.replicate_succ]
    show runReads name (safe_sensor_read fr name (Except.error () : Except Unit α)).2
      (List.replicate n (Except.error () : Except Unit α)) name = fr name + (n + 1)
    rw [ih]
    simp [safe_sensor_read, setCounter]
    omega

theorem runReads_append {α : Type} (name : SensorName) (fr : Counters)
    (l1 l2 : List (Except Unit α)) :
    runReads name fr (l1 ++ l2) = runReads name (runReads name fr l1) l2 := by
  induction l1 generalizing fr with
  | nil => rfl
  | cons o rest ih => simp [runReads, ih]

/-- C1: the health verdict is computed in exactly this priority order: wifi
down gives WiFi Disconnected; otherwise mqtt down gives MQTT Disconnected;
otherwise zero working sensors gives All Sensors Failed; otherwise fewer
working sensors than total gives the Partial string; otherwise a last
successful publish more than 300 time units old gives Publish Timeout;
otherwise Online. In particular, with the link down and every sensor failed
the verdict is WiFi Disconnected, not All Sensors Failed. -/
theorem C1_device_status_priority (s : GState) (now : Int) :
    (s.wifi = false → device_status s now = "WiFi Disconnected") ∧
    (s.wifi = true → s.mqtt = false → device_status s now = "MQTT Disconnected") ∧
    (s.wifi = true → s.mqtt = true → working_sensors s = 0 →
      device_status s now = "All Sensors Failed") ∧
    (s.wifi = true → s.mqtt = true → working_sensors s ≠ 0 →
      working_sensors s < total_sensors s →
      device_status s now = degraded_status (working_sensors s) (total_sensors s)) ∧
    (s.wifi = true → s.mqtt = true → working_sensors s ≠ 0 →
      ¬ working_sensors s < total_sensors s → 300 < now - s.lastPub →
      device_status s now = "Publish Timeout") ∧
    (s.wifi = true → s.mqtt = true → working_sensors s ≠ 0 →
      ¬ working_sensors s < total_sensors s → ¬ 300 < now - s.lastPub →
      device_status s now = "Online") ∧
    (s.wifi = false → working_sensors s = 0 →
      device_status s now = "WiFi Disconnected") := by
  unfold device_status
  refine ⟨?_, ?_, ?_, ?_, ?_, ?_, ?_⟩
  · intro h1
    rw [if_pos h1]
  · intro h1 h2
    rw [if_neg (by simp [h1]), if_pos h2]
  · intro h1 h2 h3
    rw [if_neg (by simp [h1]), if_neg (by simp [h2]), if_pos h3]
  · intro h1 h2 h3 h4
    rw [if_neg (by simp [h1]), if_neg (by simp [h2]), if_neg h3, if_pos h4]
  · intro h1 h2 h3 h4 h5
    rw [if_neg (by simp [h1]), if_neg (by simp [h2]), if_neg h3, if_neg h4, if_pos h5]
  · intro h1 h2 h3 h4 h5
    rw [if_neg (by simp [h1]), if_neg (by simp [h2]), if_neg h3, if_neg h4, if_neg h5]
  · intro h1 h2
    rw [if_pos h1]

theorem C1_witness :
    device_status stLinkDownAllFailed 0 = "WiFi Disconnected" ∧
    working_sensors stLinkDownAllFailed = 0 :=
  ⟨(C1_device_status_priority stLinkDownAllFailed 0).2.2.2.2.2.2 rfl (by decide),
   by decide⟩

/-- C2: for every sensor name and sequence of read outcomes, a successful
read resets the consecutive-failure counter of that sensor to 0 and returns
the value, a failed read increments it by 1 and returns None, a sensor is
unhealthy exactly when the counter is at least 5, so after N at least 5
consecutive failures the healthy test fails, and after one subsequent success
the counter is 0 and the healthy test passes at once. -/
theorem C2_fault_tracker_spec (name : SensorName) (fr : Counters) :
    (∀ v : ℚ, (safe_sensor_read fr name (Except.ok v)).1 = some v ∧
      (safe_sensor_read fr name (Except.ok v)).2 name = 0) ∧
    ((safe_sensor_read fr name (Except.error () : Except Unit ℚ)).1 = none ∧
      (safe_sensor_read fr name (Except.error () : Except Unit ℚ)).2 name = fr name + 1) ∧
    (∀ c : Nat, is_healthy c = false ↔ 5 ≤ c) ∧
    (∀ N : Nat, 5 ≤ N →
      is_healthy (runReads name fr
        (List.replicate N (Except.error () : Except Unit ℚ)) name) = false) ∧
    (∀ outs : List (Except Unit ℚ), ∀ v : ℚ,
      runReads name fr (outs ++ [Except.ok v]) name = 0 ∧
      is_healthy (runReads name fr (outs ++ [Except.ok v]) name) = true) := by
  refine ⟨?_, ?_, ?_, ?_, ?_⟩
  · intro v
    simp [safe_sensor_read, setCounter]
  · simp [safe_sensor_read, setCounter]
  · intro c
    simp [is_healthy]
  · intro N hN
    rw [runReads_err_replicate]
    simp [is_healthy]
    omega
  · intro outs v
    rw [runReads_append]
    refine ⟨?_, ?_⟩
    · simp [runReads, safe_sensor_read, setCounter]
    · simp [runReads, safe_sensor_read, setCounter, is_healthy]

theorem C2_witness :
    is_healthy (runReads SensorName.dht11 (fun _ => 0)
      (List.replicate 5 (Except.error () : Except Unit ℚ)) SensorName.dht11) = false ∧
    runReads SensorName.dht11 (fun _ => 0)
      (List.replicate 5 (Except.error () : Except Unit ℚ) ++ [Except.ok 7])
      SensorName.dht11 = 0 :=
  ⟨(C2_fault_tracker_spec SensorName.dht11 (fun _ => 0)).2.2.2.1 5 (by decide),
   ((C2_fault_tracker_spec SensorName.dht11 (fun _ => 0)).2.2.2.2
     (List.replicate 5 (Except.error ())) 7).1⟩

/-- C4: immediately after every publish cycle all four aggregation windows
are empty, whatever they held before and whether or not any publish
succeeded. -/
theorem C4_windows_cleared (w : Windows) (s : GState) (now : Int) (env : List Bool) :
    (publish_cycle w s now env).windows = ⟨[], [], [], []⟩ := rfl

/-- C6: safe_publish fails closed: with the session considered down it
returns false without any transport call and leaves the state unchanged; a
transport-level failure is caught, marks the mqtt flag false and returns
false; and it returns true exactly when the session was up and the transport
publish succeeded. -/
theorem C6_safe_publish_fails_closed (s : GState) (topic value : String)
    (retain : Bool) (env : List Bool) :
    (is_mqtt_connected s = false →
      safe_publish s topic value retain env = ⟨false, s, env, []⟩) ∧
    (is_mqtt_connected s = true → env.headD true = false →
      (safe_publish s topic value retain env).ok = false ∧
      (safe_publish s topic value retain env).state.mqtt = false) ∧
    ((safe_publish s topic value retain env).ok = true ↔
      is_mqtt_connected s = true ∧ env.headD true = true) := by
  unfold safe_publish
  refine ⟨?_, ?_, ?_⟩
  · intro h
    simp [h]
  · intro h1 h2
    cases env with
    | nil => simp at h2
    | cons b rest =>
      cases b
      · simp [h1]
      · simp at h2
  · by_cases h1 : is_mqtt_connected s = false
    · simp [h1]
    · have h1t : is_mqtt_connected s = true := by simpa using h1
      cases env with
      | nil => simp [h1t]
      | cons b rest => cases b <;> simp [h1t]

theorem C6_witness :
    safe_publish stMqttDown status_topic "Online" false [] =
      ⟨false, stMqttDown, [], []⟩ ∧
    (safe_publish stUp status_topic "Online" false [false]).ok = false ∧
    (safe_publish stUp status_topic "Online" false [false]).state.mqtt = false :=
  ⟨(C6_safe_publish_fails_closed stMqttDown status_topic "Online" false []).1
      (by decide),
   (C6_safe_publish_fails_closed stUp status_topic "Online" false [false]).2.1
      (by decide) (by decide)⟩

/-- C7: the drained mean of an empty window is None; the drained mean of a
nonempty window is the arithmetic mean of its entries; on the window
10, 20, 30 it is 20. -/
theorem C7_drain_mean_spec (l : List ℚ) :
    (l = [] → drain_mean l = none) ∧
    (l ≠ [] → drain_mean l = some (l.sum / l.length)) ∧
    drain_mean [10, 20, 30] = some 20 := by
  refine ⟨?_, ?_, ?_⟩
  · intro h
    simp [drain_mean, h]
  · intro h
    cases l with
    | nil => exact absurd rfl h
    | cons a t => simp [drain_mean]
  · norm_num [drain_mean]

theorem C7_witness :
    drain_mean [] = none ∧
    drain_mean [10, 20, 30] =
      some (([10, 20, 30] : List ℚ).sum / ([10, 20, 30] : List ℚ).length) :=
  ⟨(C7_drain_mean_spec []).1 rfl,
   (C7_drain_mean_spec [10, 20, 30]).2.1 (by decide)⟩

/-- C8: with calibration bounds dry greater than wet, the soil moisture
mapping sends the dry bound to 0, the wet bound to 100, clamps readings
beyond either bound, always lands in 0 to 100, and sends raw 29500 with
dry 41000 and wet 18000 to exactly 50. -/
theorem C8_get_soil_moisture_percent_spec (raw dry wet : Int) (h : wet < dry) :
    (raw = dry → get_soil_moisture_percent raw dry wet = 0) ∧
    (raw = wet → get_soil_moisture_percent raw dry wet = 100) ∧
    (dry ≤ raw → get_soil_moisture_percent raw dry wet = 0) ∧
    (raw ≤ wet → get_soil_moisture_percent raw dry wet = 100) ∧
    0 ≤ get_soil_moisture_percent raw dry wet ∧
    get_soil_moisture_percent raw dry wet ≤ 100 ∧
    get_soil_moisture_percent 29500 41000 18000 = 50 := by
  have hzero : dry ≤ raw → get_soil_moisture_percent raw dry wet = 0 := by
    intro hr
    simp only [get_soil_moisture_percent]
    rw [min_eq_right hr, max_eq_left (le_of_lt h)]
    simp
  have hhundred : raw ≤ wet → get_soil_moisture_percent raw dry wet = 100 := by
    intro hr
    simp only [get_soil_moisture_percent]
    rw [min_eq_left (le_trans hr (le_of_lt h)), max_eq_right hr, mul_comm]
    exact Int.mul_ediv_cancel _ (by omega)
  have hclamp_le : max (min raw dry) wet ≤ dry :=
    max_le (min_le_right _ _) (le_of_lt h)
  have hclamp_ge : wet ≤ max (min raw dry) wet := le_max_right _ _
  have hnn : 0 ≤ get_soil_moisture_percent raw dry wet := by
    simp only [get_soil_moisture_percent]
    exact Int.ediv_nonneg (mul_nonneg (by omega) (by norm_num)) (by omega)
  have hle : get_soil_moisture_percent raw dry wet ≤ 100 := by
    have hstep : (dry - max (min raw dry) wet) * 100 ≤ (dry - wet) * 100 :=
      mul_le_mul_of_nonneg_right (by omega) (by norm_num)
    calc get_soil_moisture_percent raw dry wet
        = (dry - max (min raw dry) wet) * 100 / (dry - wet) := rfl
      _ ≤ (dry - wet) * 100 / (dry - wet) := Int.ediv_le_ediv (by omega) hstep
      _ = 100 := by
          rw [mul_comm]
          exact Int.mul_ediv_cancel _ (by omega)
  exact ⟨fun hr => hzero (le_of_eq hr.symm), fun hr => hhundred (le_of_eq hr),
    hzero, hhundred, hnn, hle, by decide⟩

theorem C8_witness :
    get_soil_moisture_percent 29500 41000 18000 = 50 ∧
    get_soil_moisture_percent 41000 41000 18000 = 0 ∧
    get_soil_moisture_percent 18000 41000 18000 = 100 ∧
    get_soil_moisture_percent 50000 41000 18000 = 0 ∧
    get_soil_moisture_percent 5 41000 18000 = 100 :=
  ⟨(C8_get_soil_moisture_percent_spec 29500 41000 18000 (by decide)).2.2.2.2.2.2,
   (C8_get_soil_moisture_percent_spec 41000 41000 18000 (by decide)).1 rfl,
   (C8_get_soil_moisture_percent_spec 18000 41000 18000 (by decide)).2.1 rfl,
   (C8_get_soil_moisture_percent_spec 50000 41000 18000 (by decide)).2.2.1 (by decide),
   (C8_get_soil_moisture_percent_spec 5 41000 18000 (by decide)).2.2.2.1 (by decide)⟩

theorem safe_sensor_read_snd_other {α : Type} (fr : Counters) (name n : SensorName)
    (o : Except Unit α) (h : n ≠ name) :
    (safe_sensor_read fr name o).2 n = fr n := by
  cases o <;> simp [safe_sensor_read, setCounter, h]

theorem safe_sensor_read_ok_fst {α : Type} (fr : Counters) (name : SensorName) (v : α) :
    (safe_sensor_read fr name (Except.ok v)).1 = some v := rfl

theorem safe_sensor_read_ok_snd {α : Type} (fr : Counters) (name : SensorName) (v : α) :
    (safe_sensor_read fr name (Except.ok v)).2 = setCounter fr name 0 := rfl

theorem read_sensors_once_dht_none (fr : Counters) (d : Drivers) (env : ReadEnv)
    (h : d.dht = false) :
    (read_sensors_once fr d env).temp = none ∧
    (read_sensors_once fr d env).hum = none ∧
    (read_sensors_once fr d env).counters SensorName.dht11 = 0 := by
  have e1 : read_dht d env = Except.ok ((none : Option ℚ), (none : Option ℚ)) := by
    simp [read_dht, h]
  simp only [read_sensors_once, e1]
  refine ⟨rfl, rfl, ?_⟩
  rw [safe_sensor_read_snd_other _ _ _ _ (by decide),
    safe_sensor_read_snd_other _ _ _ _ (by decide), safe_sensor_read_ok_snd,
    setCounter_self]

theorem read_sensors_once_bh_none (fr : Counters) (d : Drivers) (env : ReadEnv)
    (h : d.bh = false) :
    (read_sensors_once fr d env).lux = none ∧
    (read_sensors_once fr d env).counters SensorName.bh1750 = 0 := by
  have e2 : read_bh1750 d env = Except.ok (none : Option ℚ) := by
    simp [read_bh1750, h]
  simp only [read_sensors_once, e2]
  refine ⟨?_, ?_⟩
  · rw [safe_sensor_read_ok_fst]
    rfl
  · rw [safe_sensor_read_snd_other _ _ _ _ (by decide), safe_sensor_read_ok_snd,
      setCounter_self]

theorem read_sensors_once_soil_none (fr : Counters) (d : Drivers) (env : ReadEnv)
    (h : d.soil = false) :
    (read_sensors_once fr d env).moisture = none ∧
    (read_sensors_once fr d env).counters SensorName.soil_moisture = 0 := by
  have e3 : read_soil d env = Except.ok (none : Option Int) := by
    simp [read_soil, h]
  simp only [read_sensors_once, e3]
  refine ⟨?_, ?_⟩
  · rw [safe_sensor_read_ok_fst]
    rfl
  · rw [safe_sensor_read_ok_snd, setCounter_self]

theorem runSensorLoop_dht_none (d : Drivers) (h : d.dht = false) (envs : List ReadEnv) :
    ∀ fr : Counters, fr SensorName.dht11 = 0 →
      runSensorLoop d fr envs SensorName.dht11 = 0 := by
  induction envs with
  | nil => exact fun fr h0 => h0
  | cons e rest ih =>
    intro fr h0
    exact ih _ (read_sensors_once_dht_none fr d e h).2.2

theorem runSensorLoop_bh_none (d : Drivers) (h : d.bh = false) (envs : List ReadEnv) :
    ∀ fr : Counters, fr SensorName.bh1750 = 0 →
      runSensorLoop d fr envs SensorName.bh1750 = 0 := by
  induction envs with
  | nil => exact fun fr h0 => h0
  | cons e rest ih =>
    intro fr h0
    exact ih _ (read_sensors_once_bh_none fr d e h).2

theorem runSensorLoop_soil_none (d : Drivers) (h : d.soil = false) (envs : List ReadEnv) :
    ∀ fr : Counters, fr SensorName.soil_moisture = 0 →
      runSensorLoop d fr envs SensorName.soil_moisture = 0 := by
  induction envs with
  | nil => exact fun fr h0 => h0
  | cons e rest ih =>
    intro fr h0
    exact ih _ (read_sensors_once_soil_none fr d e h).2

/-- C9: when the driver object of a sensor is None, the per-sensor read
closure returns None, or the pair None None for the DHT11, without raising,
so safe_sensor_read counts this as a success and resets the failure counter
of that sensor to 0; hence over any run in which that driver stays None and
the counter starts at its boot value 0, the counter stays 0 and the counter
test alone never classifies the sensor as unhealthy. -/
theorem C9_none_driver_counts_as_success (fr : Counters) (d : Drivers) (env : ReadEnv)
    (envs : List ReadEnv) :
    (d.dht = false →
      (read_sensors_once fr d env).temp = none ∧
      (read_sensors_once fr d env).hum = none ∧
      (read_sensors_once fr d env).counters SensorName.dht11 = 0) ∧
    (d.bh = false →
      (read_sensors_once fr d env).lux = none ∧
      (read_sensors_once fr d env).counters SensorName.bh1750 = 0) ∧
    (d.soil = false →
      (read_sensors_once fr d env).moisture = none ∧
      (read_sensors_once fr d env).counters SensorName.soil_moisture = 0) ∧
    (d.dht = false → fr SensorName.dht11 = 0 →
      runSensorLoop d fr envs SensorName.dht11 = 0 ∧
      is_healthy (runSensorLoop d fr envs SensorName.dht11) = true) ∧
    (d.bh = false → fr SensorName.bh1750 = 0 →
      runSensorLoop d fr envs SensorName.bh1750 = 0 ∧
      is_healthy (runSensorLoop d fr envs SensorName.bh1750) = true) ∧
    (d.soil = false → fr SensorName.soil_moisture = 0 →
      runSensorLoop d fr envs SensorName.soil_moisture = 0 ∧
      is_healthy (runSensorLoop d fr envs SensorName.soil_moisture) = true) := by
  refine ⟨fun h => read_sensors_once_dht_none fr d env h,
    fun h => read_sensors_once_bh_none fr d env h,
    fun h => read_sensors_once_soil_none fr d env h, ?_, ?_, ?_⟩
  · intro h h0
    have hz := runSensorLoop_dht_none d h envs fr h0
    exact ⟨hz, by rw [hz]; rfl⟩
  · intro h h0
    have hz := runSensorLoop_bh_none d h envs fr h0
    exact ⟨hz, by rw [hz]; rfl⟩
  · intro h h0
    have hz := runSensorLoop_soil_none d h envs fr h0
    exact ⟨hz, by rw [hz]; rfl⟩

theorem C9_witness :
    (read_sensors_once (fun _ => 3) dNone envRaise).counters SensorName.dht11 = 0 ∧
    runSensorLoop dNone (fun _ => 0) [envRaise, envRaise] SensorName.bh1750 = 0 :=
  ⟨((C9_none_driver_counts_as_success (fun _ => 3) dNone envRaise []).1 rfl).2.2,
   ((C9_none_driver_counts_as_success (fun _ => 0) dNone envRaise
      [envRaise, envRaise]).2.2.2.2.1 rfl rfl).1⟩

theorem publish_batch_calls (l : List (String × Option ℚ)) :
    ∀ (s : GState) (env : List Bool),
    (publish_batch s env l).calls =
      l.filterMap (fun p => p.2.map (fun _ => quantity_topic p.1)) := by
  induction l with
  | nil => intro s env; rfl
  | cons p rest ih =>
    intro s env
    rcases p with ⟨nm, v⟩
    cases v with
    | none => simp [publish_batch, ih]
    | some q => simp [publish_batch, ih]

/-- C5 as stated is false: a transport-level failure on one quantity marks
the session down, so the remaining quantities of the same batch take the
fails-closed path of safe_publish and no transport-level publish is
attempted for them. Concretely, with the session up, temperature some 1 and
humidity some 2 and a transport that fails the first publish, the only
transport-level attempt of the whole batch is the temperature one, and no
transport attempt carries the humidity topic. -/
theorem C5_counterexample :
    (publish_sensor_data stUp (some 1) (some 2) none none [false]).transported =
      [(Ev.publish (quantity_topic "temperature"), true)] ∧
    (∀ b : Bool, (Ev.publish (quantity_topic "humidity"), b) ∉
      (publish_sensor_data stUp (some 1) (some 2) none none [false]).transported) ∧
    is_mqtt_connected stUp = true := by decide

/-- C5 amended: within one publish cycle the loop itself never stops early:
whenever the session is up at cycle entry, safe_publish is invoked for every
non-None quantity of the batch, in source order, whatever the transport
outcomes of the earlier quantities were; it is only the transport-level
attempt inside safe_publish that is skipped once an earlier failure has
marked the session down. -/
theorem C5_every_quantity_handed_to_safe_publish (s : GState)
    (temp hum lux moisture : Option ℚ) (env : List Bool) :
    is_mqtt_connected s = true →
    (publish_sensor_data s temp hum lux moisture env).calls =
      (sensor_batch temp hum lux moisture).filterMap
        (fun p => p.2.map (fun _ => quantity_topic p.1)) := by
  intro h
  simp [publish_sensor_data, h, publish_batch_calls]

theorem C5_witness :
    (publish_sensor_data stUp (some 1) none none (some 3) [false]).calls =
      [quantity_topic "temperature", quantity_topic "soil_moisture"] :=
  (C5_every_quantity_handed_to_safe_publish stUp (some 1) none none (some 3) [false]
    (by decide)).trans (by decide)

theorem degraded_status_ne_mqtt (w t : Nat) :
    degraded_status w t ≠ "MQTT Disconnected" := by
  intro hE
  have h1 : (degraded_status w t).data.head? = some 'P' := rfl
  rw [hE] at h1
  exact absurd h1 (by decide)

/-- C10 as stated is false for the WiFi Disconnected verdict: the verdict
only inspects the wifi flag, while safe_publish only inspects the client and
the mqtt flag, and nothing couples them; in the state reached by the startup
sequence when the WiFi retry fails but the transport connect succeeds, the
verdict is WiFi Disconnected yet the status publish goes through and
returns true. -/
theorem C10_counterexample :
    device_status stWifiDownMqttUp 0 = "WiFi Disconnected" ∧
    (publish_device_status stWifiDownMqttUp 0 [true]).ok = true := by decide

/-- C10 amended: publish_device_status goes through the fails-closed path,
so it returns false whenever is_mqtt_connected is false, in particular
whenever the mqtt flag is down, and hence in every state whose computed
verdict is MQTT Disconnected; a WiFi Disconnected verdict alone does not
force a false return. -/
theorem C10_status_publish_fails_closed (s : GState) (now : Int) (env : List Bool) :
    (is_mqtt_connected s = false → (publish_device_status s now env).ok = false) ∧
    (s.mqtt = false → (publish_device_status s now env).ok = false) ∧
    (device_status s now = "MQTT Disconnected" →
      (publish_device_status s now env).ok = false) := by
  have hm : s.mqtt = false → (publish_device_status s now env).ok = false := by
    intro h
    have hc : is_mqtt_connected s = false := by simp [is_mqtt_connected, h]
    simp [publish_device_status, safe_publish, hc]
  refine ⟨?_, hm, ?_⟩
  · intro h
    simp [publish_device_status, safe_publish, h]
  · intro h
    apply hm
    by_contra hmt
    have hmt2 : s.mqtt = true := by simpa using hmt
    unfold device_status at h
    by_cases hw : s.wifi = false
    · rw [if_pos hw] at h
      exact absurd h (by decide)
    · rw [if_neg hw, if_neg (by simp [hmt2])] at h
      split_ifs at h with h3 h4 h5
      · exact absurd h (by decide)
      · exact absurd h (degraded_status_ne_mqtt _ _)
      · exact absurd h (by decide)
      · exact absurd h (by decide)

theorem C10_witness :
    (publish_device_status stMqttDown 0 [true]).ok = false :=
  (C10_status_publish_fails_closed stMqttDown 0 [true]).2.2 (by decide)

/-- C3 as stated is false: the startup sequence of src/main.py lines 604 to
612 calls connect_mqtt unconditionally, so when the WiFi connect fails a
session connect attempt is made while the link is down, and when that
transport connect then succeeds the mqtt flag becomes true while the wifi
flag is false, violating the session-up-implies-link-up invariant as well. -/
theorem C3_counterexample :
    ((Ev.connectSession, false) ∈ (startup stBoot false true true [] 0).2) ∧
    (startup stBoot false true true [] 0).1.wifi = false ∧
    (startup stBoot false true true [] 0).1.mqtt = true := by decide

theorem mqtt_check_step_ping (s1 : GState) (pingOk connectOk testOk : Bool)
    (se1 : List Bool) (now : Int) (hce : s1.clientExists = true) :
    ∃ rest : Trace,
      (mqtt_check_step s1 pingOk connectOk testOk se1 now).2 =
        (Ev.ping, s1.wifi) :: rest := by
  simp only [mqtt_check_step, hce, if_true]
  exact ⟨_, rfl⟩

/-- C3 amended: session attempts are not gated on the link state: the
startup sequence always makes a session connect attempt, recorded with
whatever wifi flag the preceding connect_wifi left, and the periodic
connectivity check makes a ping attempt whenever the client object exists,
again regardless of the link state. The session-up-implies-link-up invariant
therefore holds only when the environment never lets a session operation
succeed while the link is down; it is not enforced by construction. -/
theorem C3_session_attempts_not_gated (s : GState) (wifiOk connectOk testOk : Bool)
    (se : List Bool) (now : Int) (wlanConnected pingOk : Bool) (se1 se2 : List Bool) :
    ((Ev.connectSession, wifiOk) ∈ (startup s wifiOk connectOk testOk se now).2) ∧
    (s.clientExists = true →
      (Ev.ping, if wlanConnected = false then wifiOk else true) ∈
        (connectivity_check s wlanConnected wifiOk pingOk connectOk testOk se1 se2 now).2) := by
  constructor
  · unfold startup connect_wifi connect_mqtt
    cases connectOk <;> cases testOk <;> simp
  · intro hce
    cases wlanConnected with
    | false =>
      obtain ⟨rest, hrest⟩ := mqtt_check_step_ping (connect_wifi s wifiOk).2
        pingOk connectOk testOk se1 now (by simp [connect_wifi, hce])
      have hw : (connect_wifi s wifiOk).2.wifi = wifiOk := rfl
      rw [hw] at hrest
      simp only [connectivity_check]
      split
      next h =>
        split <;> simp [hrest]
      next h => exact absurd trivial h
    | true =>
      obtain ⟨rest, hrest⟩ := mqtt_check_step_ping { s with wifi := true }
        pingOk connectOk testOk se1 now (by simp [hce])
      simp only [connectivity_check]
      split
      next h => exact absurd h (by simp)
      next h =>
        split <;> simp [hrest]

theorem C3_witness :
    ((Ev.connectSession, false) ∈ (startup stUp false false false [] 0).2) ∧
    ((Ev.ping, true) ∈
      (connectivity_check stUp true false true false false [] [] 0).2) := by
  have h := C3_session_attempts_not_gated stUp false false false [] 0 true true [] []
  exact ⟨h.1, by simpa using h.2 rfl⟩

end PlantMonitor
